import Mathlib

/-!
Verification of `django-rest-polymorphic` (polymorphic dispatcher and
polymorphic browsable-form renderer).

The repository's source here consists of `rest_polymorphic/renderers.py`
(the `PolymorphicRenderer`) together with its test suite.  The polymorphic
serializer itself (`rest_polymorphic/serializers.py`) is exercised by the
tests but its code is not among the sources, so the parts of it that the
claims need are modelled from the specification (each such definition says
so in its doc comment).

Dictionaries are embedded as association lists with Python dict semantics:
lookup finds the first binding, assignment overwrites in place or appends,
truthiness of a dict is non-emptiness.
-/

/-- A record / payload: a dict from field names to (string) values. -/
abbrev Payload := List (String × String)

/-- Python `d[k]` as an optional lookup: first binding of `k` wins. -/
def dictGet {α : Type} (d : List (String × α)) (k : String) : Option α :=
  match d with
  | [] => none
  | (k', v) :: rest => if k' = k then some v else dictGet rest k

/-- Python `d[k] = v`: overwrite the existing binding in place, else append. -/
def dictSet {α : Type} (d : List (String × α)) (k : String) (v : α) :
    List (String × α) :=
  match d with
  | [] => [(k, v)]
  | (k', v') :: rest =>
    if k' = k then (k, v) :: rest else (k', v') :: dictSet rest k v

/-- Remove every binding of `k` (used to withhold the discriminator field
from the per-subtype handler). -/
def dictRemove {α : Type} (d : List (String × α)) (k : String) :
    List (String × α) :=
  d.filter (fun p => !(p.1 = k))

namespace Renderers

/-- A Django model class, as a registry key: what the renderer reads from it
is its `__name__`. -/
structure Model where
  name : String
deriving DecidableEq

/-- A per-subtype (non-polymorphic) serializer, as the base form renderer
sees it: the set of fields its rendered form gets controls for. -/
structure ChildSer where
  fields : List String
deriving DecidableEq

/-- A rendered HTML form, abstracted to the field names it has controls
for. -/
structure RenderedForm where
  controls : List String
deriving DecidableEq

/-- The base rendering operation (`BrowsableAPIRenderer.render_form_for_serializer`,
an opaque host-framework collaborator): renders one form with a control per
serializer field. -/
def render_form_base (fields : List String) : RenderedForm :=
  { controls := fields }

/-- The result of `PolymorphicRenderer.render_form_for_serializer`:
either a single rendered form, or the labeled collection
`(('Item', RenderedItemForm), ...)` (a Python tuple of pairs). -/
inductive FormResult where
  | single : RenderedForm → FormResult
  | multi : List (String × RenderedForm) → FormResult
deriving DecidableEq

/-- A validation error attributed to a field: (field name, message).  In the
Python code this is a raised `ValidationError`; the renderer has no handler
for it, so in the embedding it propagates as the `Except.error` case. -/
abbrev FieldErr := String × String

/-- Modelled from the spec: the observable serializer state the renderer
works against.  The polymorphic serializer's own code is not among the
sources; per the spec it carries a subtype registry
(`model_serializer_mapping`, absent on non-polymorphic serializers),
a discriminator field name, optionally attached raw input data
(`initial_data`), and produced output data (`.data`, empty when unbound).
`normalizedData` is the value `.data` takes after a validation pass. -/
structure SerState where
  model_serializer_mapping : Option (List (Model × ChildSer))
  resource_type_field_name : String
  fields : List String
  initial_data : Option Payload
  validated : Bool
  dataField : Payload
  normalizedData : Payload
deriving DecidableEq

/-- Modelled from the spec: `serializer.is_valid()` as the renderer uses it
— a validation pass that normalizes the serializer's state (marks it
validated and settles what `.data` yields). -/
def is_valid (s : SerState) : SerState :=
  { s with validated := true, dataField := s.normalizedData }

/-- Modelled from the spec: `_get_resource_type_from_mapping` of the
polymorphic serializer (its module is not among the sources).  Reads the
discriminator value from a record; if missing, fails with a validation
error attributing "field required" to the discriminator field. -/
def get_resource_type_from_mapping (fieldName : String) (record : Payload) :
    Except FieldErr String :=
  match dictGet record fieldName with
  | some v => Except.ok v
  | none => Except.error (fieldName, "field required")

/-- Modelled from the spec: `_get_serializer_from_resource_type` of the
polymorphic serializer (its module is not among the sources).  Looks the
resource type up among the registered model names; if absent, fails with a
validation error "no matching handler for value <X>" on the discriminator
field. -/
def get_serializer_from_resource_type
    (mapping : List (Model × ChildSer)) (fieldName rt : String) :
    Except FieldErr ChildSer :=
  match mapping.find? (fun p => p.1.name = rt) with
  | some p => Except.ok p.2
  | none => Except.error (fieldName, "no matching handler for value " ++ rt)

/-- `PolymorphicRenderer.render_form_for_serializer`, line by line:
if the serializer has a truthy `model_serializer_mapping` it is polymorphic:
first `is_valid()` when `initial_data` is attached; then, if `.data` is
truthy, resolve the resource type from `.data` and return the base render
of the resolved child serializer; otherwise return the tuple of
`(model.__name__, base render of child)` pairs over the registry.  A falsy
mapping (absent or empty) delegates to the base operation unchanged.
The returned state records the side effect of the validation pass. -/
def render_form_for_serializer (s : SerState) :
    Except FieldErr (FormResult × SerState) :=
  match s.model_serializer_mapping with
  | none => Except.ok (FormResult.single (render_form_base s.fields), s)
  | some mapping =>
    if mapping.isEmpty then
      Except.ok (FormResult.single (render_form_base s.fields), s)
    else
      let s1 := if s.initial_data.isSome then is_valid s else s
      if s1.dataField.isEmpty then
        Except.ok
          (FormResult.multi
            (mapping.map (fun p => (p.1.name, render_form_base p.2.fields))),
           s1)
      else
        match get_resource_type_from_mapping
            s1.resource_type_field_name s1.dataField with
        | Except.error e => Except.error e
        | Except.ok rt =>
          match get_serializer_from_resource_type
              mapping s1.resource_type_field_name rt with
          | Except.error e => Except.error e
          | Except.ok child =>
            Except.ok
              (FormResult.single (render_form_base child.fields), s1)

/-- A value in the rendering context dict. -/
inductive CtxVal where
  | form : FormResult → CtxVal
  | bool : Bool → CtxVal
  | str : String → CtxVal
  | noneVal : CtxVal
deriving DecidableEq

/-- Python `isinstance(v, tuple)` on a context value: only the labeled
collection of forms is a tuple. -/
def isinstance_tuple (v : CtxVal) : Bool :=
  match v with
  | CtxVal.form (FormResult.multi _) => true
  | _ => false

/-- `PolymorphicRenderer.get_context`: take the context produced by the base
operation, set `ctx['is_polymorphic'] = isinstance(ctx['post_form'], tuple)`
and return it.  A context without a `'post_form'` key would raise `KeyError`
in Python, embedded as `none`. -/
def get_context (ctx : List (String × CtxVal)) :
    Option (List (String × CtxVal)) :=
  match dictGet ctx "post_form" with
  | none => none
  | some v =>
    some (dictSet ctx "is_polymorphic" (CtxVal.bool (isinstance_tuple v)))

end Renderers

namespace Serializers

/-- A Python value for a class-level setting that need not be a string
(the tests configure `resource_type_field_name = 1`). -/
inductive PyVal where
  | str : String → PyVal
  | int : Int → PyVal
deriving DecidableEq

/-- Modelled from the spec: a per-subtype handler (validator + serializer
pair), abstracted to the fields it owns; it serializes an instance by
projecting those fields and validates a payload by requiring them. -/
structure Handler where
  fields : List String
deriving DecidableEq

/-- Modelled from the spec: a constructed polymorphic dispatcher — a
non-empty subtype registry keyed by subtype name, plus a string
discriminator field name. -/
structure PolymorphicSerializer where
  model_serializer_mapping : List (String × Handler)
  resource_type_field_name : String
deriving DecidableEq

/-- The default discriminator field name. -/
def default_resource_type_field : PyVal := PyVal.str "resourcetype"

/-- Modelled from the spec: the construction-time configuration checks of
the polymorphic serializer (its module is not among the sources; the error
texts are those the test suite asserts).  A missing or empty registry, or a
non-string discriminator field name, fails with an `ImproperlyConfigured`
message; otherwise construction succeeds. -/
def mkPolymorphicSerializer (clsName : String)
    (mapping : Option (List (String × Handler))) (rtField : PyVal) :
    Except String PolymorphicSerializer :=
  match mapping with
  | none =>
    Except.error
      ("`" ++ clsName ++ "` is missing a `" ++ clsName ++
        ".model_serializer_mapping` attribute")
  | some m =>
    if m.isEmpty then
      Except.error
        ("`" ++ clsName ++ "` is missing a `" ++ clsName ++
          ".model_serializer_mapping` attribute")
    else
      match rtField with
      | PyVal.str fn =>
        Except.ok { model_serializer_mapping := m,
                    resource_type_field_name := fn }
      | _ =>
        Except.error
          ("`" ++ clsName ++ ".resource_type_field_name` must be a string")

/-- A bound model instance: its declared type hierarchy (most-derived type
name first, base last) and its attributes. -/
structure Instance where
  mro : List String
  attrs : Payload
deriving DecidableEq

/-- The handler's own serialization: project the instance's attributes onto
the handler's fields (an opaque host-framework collaborator, abstracted). -/
def handler_to_representation (h : Handler) (inst : Instance) : Payload :=
  h.fields.filterMap (fun f => (dictGet inst.attrs f).map (fun v => (f, v)))

/-- The handler's own field validation (an opaque host-framework
collaborator, abstracted): every handler field must be present. -/
def handler_run_validation (h : Handler) (payload : Payload) :
    Except (List (String × List String)) Payload :=
  match h.fields.filter (fun f => (dictGet payload f).isNone) with
  | [] => Except.ok (h.fields.filterMap
      (fun f => (dictGet payload f).map (fun v => (f, v))))
  | missing =>
    Except.error (missing.map (fun f => (f, ["This field is required."])))

/-- Modelled from the spec: resolve the handler for a bound instance —
walk the instance's declared type hierarchy most-derived first and return
the first registered subtype name together with its handler. -/
def resolve_for_instance (d : PolymorphicSerializer) (inst : Instance) :
    Option (String × Handler) :=
  inst.mro.findSome?
    (fun n => (dictGet d.model_serializer_mapping n).map (fun h => (n, h)))

/-- Modelled from the spec: `to_representation` of the dispatcher — resolve
the instance's subtype, invoke that handler's serialization, then inject
the discriminator field with the registered subtype name.  No registered
match is a configuration defect. -/
def to_representation (d : PolymorphicSerializer) (inst : Instance) :
    Except String Payload :=
  match resolve_for_instance d inst with
  | none => Except.error "no registered handler for instance type"
  | some rh =>
    Except.ok
      (dictSet (handler_to_representation rh.2 inst)
        d.resource_type_field_name rh.1)

/-- Modelled from the spec: the validate step (`is_valid`) of the
dispatcher.  It returns, as data, whether validation passed together with
the field-error mapping, plus the list of subtype names whose handler was
invoked (to observe that no handler runs on discriminator failures).
Reading a missing discriminator attributes "field required" to it; an
unregistered value attributes "no matching handler for value <X>";
otherwise the resolved handler validates the payload minus the
discriminator field. -/
def is_valid (d : PolymorphicSerializer) (payload : Payload) :
    (Bool × List (String × List String)) × List String :=
  match dictGet payload d.resource_type_field_name with
  | none =>
    ((false, [(d.resource_type_field_name, ["field required"])]), [])
  | some v =>
    match dictGet d.model_serializer_mapping v with
    | none =>
      ((false,
        [(d.resource_type_field_name,
          ["no matching handler for value " ++ v])]), [])
    | some h =>
      match handler_run_validation h
          (dictRemove payload d.resource_type_field_name) with
      | Except.ok _ => ((true, []), [v])
      | Except.error errs => ((false, errs), [v])

end Serializers

/-! ### Dictionary lemmas -/

theorem dictGet_dictSet_self {α : Type} (d : List (String × α)) (k : String)
    (v : α) : dictGet (dictSet d k v) k = some v := by
  induction d with
  | nil => simp [dictGet, dictSet]
  | cons p rest ih =>
    by_cases h : p.1 = k
    · simp [dictGet, dictSet, h]
    · simp [dictGet, dictSet, h, ih]

theorem dictGet_dictSet_ne {α : Type} (d : List (String × α))
    (k k' : String) (v : α) (hne : k' ≠ k) :
    dictGet (dictSet d k v) k' = dictGet d k' := by
  induction d with
  | nil => simp [dictGet, dictSet, Ne.symm hne]
  | cons p rest ih =>
    by_cases h : p.1 = k
    · simp [dictGet, dictSet, h, Ne.symm hne]
    · simp [dictGet, dictSet, h, ih]

theorem dictSet_absent {α : Type} (d : List (String × α)) (k : String)
    (v : α) (habs : dictGet d k = none) : dictSet d k v = d ++ [(k, v)] := by
  induction d with
  | nil => simp [dictSet]
  | cons p rest ih =>
    by_cases h : p.1 = k
    · simp [dictGet, h] at habs
    · simp [dictGet, h] at habs
      simp [dictSet, h, ih habs]


/-! ### Concrete example data (mirrors the test suite's blog registry) -/

/-- The test registry: `BlogBase`, `BlogOne` (extra field `info`), `BlogTwo`
(extra field `about`), as the renderer sees it. -/
def blogMapping : List (Renderers.Model × Renderers.ChildSer) :=
  [({ name := "BlogBase" }, { fields := ["name", "slug"] }),
   ({ name := "BlogOne" }, { fields := ["name", "slug", "info"] }),
   ({ name := "BlogTwo" }, { fields := ["name", "slug", "about"] })]

/-- An unbound polymorphic serializer over the blog registry (no instance,
no raw input). -/
def unboundBlogSer : Renderers.SerState :=
  { model_serializer_mapping := some blogMapping,
    resource_type_field_name := "resourcetype",
    fields := [],
    initial_data := none,
    validated := false,
    dataField := [],
    normalizedData := [] }

/-- A polymorphic serializer bound to a `BlogOne` instance. -/
def boundBlogOneSer : Renderers.SerState :=
  { model_serializer_mapping := some blogMapping,
    resource_type_field_name := "resourcetype",
    fields := [],
    initial_data := none,
    validated := false,
    dataField := [("name", "test-blog"), ("slug", "test-blog-slug"),
                  ("info", "test-blog-info"), ("resourcetype", "BlogOne")],
    normalizedData := [] }

/-- A polymorphic serializer whose produced data carries a discriminator
value that is registered for no subtype. -/
def invalidBoundSer : Renderers.SerState :=
  { model_serializer_mapping := some blogMapping,
    resource_type_field_name := "resourcetype",
    fields := [],
    initial_data := none,
    validated := false,
    dataField := [("name", "blog"), ("resourcetype", "Invalid")],
    normalizedData := [] }

/-! ### Renderer claims -/

/-- C4: a serializer without a `model_serializer_mapping` attribute is
rendered by delegating unchanged to the base rendering operation. -/
theorem C4_no_mapping_passthrough (s : Renderers.SerState)
    (h : s.model_serializer_mapping = none) :
    Renderers.render_form_for_serializer s =
      Except.ok (Renderers.FormResult.single
        (Renderers.render_form_base s.fields), s) := by
  simp [Renderers.render_form_for_serializer, h]

/-- Witness for C4 at a concrete non-polymorphic serializer. -/
theorem C4_no_mapping_passthrough_witness :
    Renderers.render_form_for_serializer
      { model_serializer_mapping := none,
        resource_type_field_name := "resourcetype",
        fields := ["name", "slug", "info"],
        initial_data := none,
        validated := false,
        dataField := [("name", "test-blog")],
        normalizedData := [] } =
      Except.ok (Renderers.FormResult.single
        (Renderers.render_form_base ["name", "slug", "info"]),
        { model_serializer_mapping := none,
          resource_type_field_name := "resourcetype",
          fields := ["name", "slug", "info"],
          initial_data := none,
          validated := false,
          dataField := [("name", "test-blog")],
          normalizedData := [] }) :=
  C4_no_mapping_passthrough _ rfl

/-- C10: a serializer whose `model_serializer_mapping` exists but is an
empty mapping is falsy in the `if mapping:` test, so it is treated exactly
like a non-polymorphic serializer: base rendering, no empty collection. -/
theorem C10_empty_mapping_passthrough (s : Renderers.SerState)
    (h : s.model_serializer_mapping = some []) :
    Renderers.render_form_for_serializer s =
      Except.ok (Renderers.FormResult.single
        (Renderers.render_form_base s.fields), s) := by
  simp [Renderers.render_form_for_serializer, h]

/-- Witness for C10 at a concrete serializer with an empty registry. -/
theorem C10_empty_mapping_passthrough_witness :
    Renderers.render_form_for_serializer
      { model_serializer_mapping := some [],
        resource_type_field_name := "resourcetype",
        fields := ["name"],
        initial_data := some [("name", "x")],
        validated := false,
        dataField := [("name", "x")],
        normalizedData := [("name", "x")] } =
      Except.ok (Renderers.FormResult.single
        (Renderers.render_form_base ["name"]),
        { model_serializer_mapping := some [],
          resource_type_field_name := "resourcetype",
          fields := ["name"],
          initial_data := some [("name", "x")],
          validated := false,
          dataField := [("name", "x")],
          normalizedData := [("name", "x")] }) :=
  C10_empty_mapping_passthrough _ rfl

/-- C1: an unbound polymorphic serializer (its produced output data is
empty) is rendered as the labeled collection: a validation pass is forced
first when raw input data is attached, and the result has exactly one
`(subtype name, base-rendered child form)` pair per registry entry, in the
registry's order, each form holding only that subtype's own fields. -/
theorem C1_unbound_labeled_collection
    (s s1 : Renderers.SerState)
    (m : List (Renderers.Model × Renderers.ChildSer))
    (hm : s.model_serializer_mapping = some m) (hne : m ≠ [])
    (hs1 : s1 = if s.initial_data.isSome then Renderers.is_valid s else s)
    (hdata : s1.dataField = []) :
    Renderers.render_form_for_serializer s =
      Except.ok (Renderers.FormResult.multi
        (m.map (fun p => (p.1.name, Renderers.render_form_base p.2.fields))),
        s1)
    ∧ (s.initial_data.isSome = true → s1.validated = true)
    ∧ (m.map (fun p =>
        (p.1.name, Renderers.render_form_base p.2.fields))).length
        = m.length := by
  have hemp : m.isEmpty = false := by
    cases m with
    | nil => exact absurd rfl hne
    | cons a t => rfl
  refine ⟨?_, ?_, by simp⟩
  · simp only [Renderers.render_form_for_serializer, hm, hemp]
    rw [← hs1, hdata]
    simp [List.isEmpty]
  · intro hin
    rw [hs1, if_pos hin]
    rfl

/-- Witness for C1: rendering the unbound blog serializer yields the three
labeled forms of the test suite, `BlogOne`'s (and only it) carrying the
`info` field. -/
theorem C1_unbound_labeled_collection_witness :
    Renderers.render_form_for_serializer unboundBlogSer =
      Except.ok (Renderers.FormResult.multi
        [("BlogBase", Renderers.render_form_base ["name", "slug"]),
         ("BlogOne", Renderers.render_form_base ["name", "slug", "info"]),
         ("BlogTwo", Renderers.render_form_base ["name", "slug", "about"])],
        unboundBlogSer) :=
  (C1_unbound_labeled_collection unboundBlogSer unboundBlogSer blogMapping
    rfl (by decide) rfl rfl).1

/-- C2: a polymorphic serializer bound to a concrete record (non-empty
produced output data) is rendered by resolving the handler for the
record's discriminator value and returning the base rendering of that
single resolved handler's form — a single form, never the collection. -/
theorem C2_bound_single_resolved_form
    (s s1 : Renderers.SerState)
    (m : List (Renderers.Model × Renderers.ChildSer))
    (rt : String) (child : Renderers.ChildSer)
    (hm : s.model_serializer_mapping = some m) (hne : m ≠ [])
    (hs1 : s1 = if s.initial_data.isSome then Renderers.is_valid s else s)
    (hdata : s1.dataField ≠ [])
    (hrt : Renderers.get_resource_type_from_mapping
      s1.resource_type_field_name s1.dataField = Except.ok rt)
    (hchild : Renderers.get_serializer_from_resource_type
      m s1.resource_type_field_name rt = Except.ok child) :
    Renderers.render_form_for_serializer s =
      Except.ok (Renderers.FormResult.single
        (Renderers.render_form_base child.fields), s1) := by
  have hemp : m.isEmpty = false := by
    cases m with
    | nil => exact absurd rfl hne
    | cons a t => rfl
  have hde : s1.dataField.isEmpty = false := by
    cases hd : s1.dataField with
    | nil => exact absurd hd hdata
    | cons a t => rfl
  simp only [Renderers.render_form_for_serializer, hm, hemp]
  rw [← hs1]
  simp only [hde, hrt, hchild]
  rfl

/-- Witness for C2: the serializer bound to a `BlogOne` record renders the
single `BlogOne` form. -/
theorem C2_bound_single_resolved_form_witness :
    Renderers.render_form_for_serializer boundBlogOneSer =
      Except.ok (Renderers.FormResult.single
        (Renderers.render_form_base ["name", "slug", "info"]),
        boundBlogOneSer) :=
  C2_bound_single_resolved_form boundBlogOneSer boundBlogOneSer blogMapping
    "BlogOne" { fields := ["name", "slug", "info"] }
    rfl (by decide) rfl (by decide) rfl rfl

/-- C3 counterexample: at a bound serializer whose discriminator value
`"Invalid"` is registered for no subtype, `render_form_for_serializer`
propagates the resolution's validation error instead of degrading to any
rendered (ok) representation — refuting the claim that rendering never
raises beyond the base operation and degrades on resolution failure. -/
theorem C3_resolution_failure_raises_counterexample :
    Renderers.render_form_for_serializer invalidBoundSer =
      Except.error ("resourcetype", "no matching handler for value Invalid") := by
  rfl

/-- C3 (amended): `render_form_for_serializer` adds exactly one error
condition beyond the base rendering operation: for a polymorphic serializer
bound to a record whose discriminator value is absent or unregistered, the
resolution's validation error propagates out of the render (the page render
fails) rather than degrading to a default representation. -/
theorem C3_amended_resolution_error_propagates
    (s s1 : Renderers.SerState)
    (m : List (Renderers.Model × Renderers.ChildSer))
    (e : Renderers.FieldErr)
    (hm : s.model_serializer_mapping = some m) (hne : m ≠ [])
    (hs1 : s1 = if s.initial_data.isSome then Renderers.is_valid s else s)
    (hdata : s1.dataField ≠ [])
    (herr : Renderers.get_resource_type_from_mapping
        s1.resource_type_field_name s1.dataField = Except.error e
      ∨ ∃ rt, Renderers.get_resource_type_from_mapping
          s1.resource_type_field_name s1.dataField = Except.ok rt
        ∧ Renderers.get_serializer_from_resource_type
            m s1.resource_type_field_name rt = Except.error e) :
    Renderers.render_form_for_serializer s = Except.error e := by
  have hemp : m.isEmpty = false := by
    cases m with
    | nil => exact absurd rfl hne
    | cons a t => rfl
  have hde : s1.dataField.isEmpty = false := by
    cases hd : s1.dataField with
    | nil => exact absurd hd hdata
    | cons a t => rfl
  simp only [Renderers.render_form_for_serializer, hm, hemp]
  rw [← hs1]
  rcases herr with h | ⟨rt, h1, h2⟩
  · simp only [hde, h]
    rfl
  · simp only [hde, h1, h2]
    rfl

/-- Witness for the amended C3 at a bound serializer whose produced data
lacks the discriminator field altogether. -/
theorem C3_amended_resolution_error_propagates_witness :
    Renderers.render_form_for_serializer
      { model_serializer_mapping := some blogMapping,
        resource_type_field_name := "resourcetype",
        fields := [],
        initial_data := none,
        validated := false,
        dataField := [("name", "blog")],
        normalizedData := [] } =
      Except.error ("resourcetype", "field required") :=
  C3_amended_resolution_error_propagates
    { model_serializer_mapping := some blogMapping,
      resource_type_field_name := "resourcetype",
      fields := [],
      initial_data := none,
      validated := false,
      dataField := [("name", "blog")],
      normalizedData := [] }
    { model_serializer_mapping := some blogMapping,
      resource_type_field_name := "resourcetype",
      fields := [],
      initial_data := none,
      validated := false,
      dataField := [("name", "blog")],
      normalizedData := [] }
    blogMapping ("resourcetype", "field required")
    rfl (by decide) rfl (by decide) (Or.inl rfl)

/-- C5: `get_context` returns the base context extended with a boolean
`'is_polymorphic'` entry whose value is true exactly when the post form is
the labeled-collection (tuple) kind, and false for a single form. -/
theorem C5_get_context_is_polymorphic_flag
    (ctx : List (String × Renderers.CtxVal)) (v : Renderers.CtxVal)
    (hpf : dictGet ctx "post_form" = some v) :
    Renderers.get_context ctx =
      some (dictSet ctx "is_polymorphic"
        (Renderers.CtxVal.bool (Renderers.isinstance_tuple v)))
    ∧ dictGet (dictSet ctx "is_polymorphic"
        (Renderers.CtxVal.bool (Renderers.isinstance_tuple v)))
        "is_polymorphic"
      = some (Renderers.CtxVal.bool (Renderers.isinstance_tuple v))
    ∧ (Renderers.isinstance_tuple v = true ↔
        ∃ forms, v = Renderers.CtxVal.form (Renderers.FormResult.multi forms)) := by
  refine ⟨by simp [Renderers.get_context, hpf], dictGet_dictSet_self _ _ _, ?_⟩
  cases v with
  | form f =>
    cases f with
    | single r => simp [Renderers.isinstance_tuple]
    | multi l => simp [Renderers.isinstance_tuple]
  | bool b => simp [Renderers.isinstance_tuple]
  | str t => simp [Renderers.isinstance_tuple]
  | noneVal => simp [Renderers.isinstance_tuple]

/-- Witness for C5 at a concrete context whose post form is a labeled
collection: the flag comes out true. -/
theorem C5_get_context_is_polymorphic_flag_witness :
    Renderers.get_context
      [("post_form", Renderers.CtxVal.form (Renderers.FormResult.multi
          [("BlogBase", Renderers.render_form_base ["name", "slug"])])),
       ("view", Renderers.CtxVal.str "BlogViewSet")] =
      some (dictSet
        [("post_form", Renderers.CtxVal.form (Renderers.FormResult.multi
            [("BlogBase", Renderers.render_form_base ["name", "slug"])])),
         ("view", Renderers.CtxVal.str "BlogViewSet")]
        "is_polymorphic" (Renderers.CtxVal.bool true)) :=
  (C5_get_context_is_polymorphic_flag
    [("post_form", Renderers.CtxVal.form (Renderers.FormResult.multi
        [("BlogBase", Renderers.render_form_base ["name", "slug"])])),
     ("view", Renderers.CtxVal.str "BlogViewSet")]
    (Renderers.CtxVal.form (Renderers.FormResult.multi
      [("BlogBase", Renderers.render_form_base ["name", "slug"])])) rfl).1

/-- C9: apart from adding the `'is_polymorphic'` key, `get_context` leaves
the base context untouched — every other key keeps its base value and the
key list is the base one with exactly `'is_polymorphic'` appended. -/
theorem C9_get_context_frame
    (ctx : List (String × Renderers.CtxVal)) (v : Renderers.CtxVal)
    (hpf : dictGet ctx "post_form" = some v)
    (habs : dictGet ctx "is_polymorphic" = none) :
    ∃ ctx', Renderers.get_context ctx = some ctx'
      ∧ (∀ k, k ≠ "is_polymorphic" → dictGet ctx' k = dictGet ctx k)
      ∧ ctx'.map Prod.fst = ctx.map Prod.fst ++ ["is_polymorphic"] := by
  refine ⟨dictSet ctx "is_polymorphic"
      (Renderers.CtxVal.bool (Renderers.isinstance_tuple v)),
    by simp [Renderers.get_context, hpf], ?_, ?_⟩
  · intro k hk
    exact dictGet_dictSet_ne ctx "is_polymorphic" k _ hk
  · rw [dictSet_absent ctx "is_polymorphic" _ habs]
    simp

/-- Witness for C9 at a concrete two-key context. -/
theorem C9_get_context_frame_witness :
    ∃ ctx', Renderers.get_context
        [("post_form", Renderers.CtxVal.form (Renderers.FormResult.single
            (Renderers.render_form_base ["name"]))),
         ("content", Renderers.CtxVal.str "body")] = some ctx'
      ∧ (∀ k, k ≠ "is_polymorphic" →
          dictGet ctx' k = dictGet
            [("post_form", Renderers.CtxVal.form (Renderers.FormResult.single
                (Renderers.render_form_base ["name"]))),
             ("content", Renderers.CtxVal.str "body")] k)
      ∧ ctx'.map Prod.fst = ["post_form", "content", "is_polymorphic"] :=
  C9_get_context_frame
    [("post_form", Renderers.CtxVal.form (Renderers.FormResult.single
        (Renderers.render_form_base ["name"]))),
     ("content", Renderers.CtxVal.str "body")]
    (Renderers.CtxVal.form (Renderers.FormResult.single
      (Renderers.render_form_base ["name"])))
    rfl rfl

/-! ### Dispatcher claims (spec-modelled serializer) -/

/-- The first pair produced by walking `l` against an association map is a
genuine binding of that map. -/
theorem findSome_pair_dictGet {α : Type} (map : List (String × α))
    (l : List String) (rt : String) (h : α)
    (hres : l.findSome? (fun n => (dictGet map n).map (fun x => (n, x)))
      = some (rt, h)) :
    dictGet map rt = some h := by
  induction l with
  | nil => simp [List.findSome?] at hres
  | cons a t ih =>
    cases hd : dictGet map a with
    | none =>
      rw [List.findSome?_cons] at hres
      simp only [hd, Option.map_none'] at hres
      exact ih hres
    | some x =>
      rw [List.findSome?_cons] at hres
      simp only [hd, Option.map_some'] at hres
      obtain ⟨h1, h2⟩ := Prod.mk.injEq .. ▸ Option.some.injEq .. ▸ hres
      rw [← h1, hd, h2]

/-- The test registry on the serializer side: subtype name to handler. -/
def blogHandlers : List (String × Serializers.Handler) :=
  [("BlogBase", { fields := ["name", "slug"] }),
   ("BlogOne", { fields := ["name", "slug", "info"] }),
   ("BlogTwo", { fields := ["name", "slug", "about"] })]

/-- The blog dispatcher of the test suite, with the default discriminator
field name. -/
def blogDispatcher : Serializers.PolymorphicSerializer :=
  { model_serializer_mapping := blogHandlers,
    resource_type_field_name := "resourcetype" }

/-- A `BlogOne` instance (its type hierarchy is `BlogOne`, then
`BlogBase`). -/
def blogOneInst : Serializers.Instance :=
  { mro := ["BlogOne", "BlogBase"],
    attrs := [("name", "blog"), ("slug", "blog-slug"),
              ("info", "blog-info")] }

/-- C6: serializing an instance of a registered subtype through the
dispatcher resolves its registered subtype name, succeeds, and the
resulting record contains the discriminator field with exactly that
registered name as its value. -/
theorem C6_serialize_discriminator_equals_registered_name
    (d : Serializers.PolymorphicSerializer) (inst : Serializers.Instance)
    (rt : String) (h : Serializers.Handler)
    (hres : Serializers.resolve_for_instance d inst = some (rt, h)) :
    Serializers.to_representation d inst =
      Except.ok (dictSet (Serializers.handler_to_representation h inst)
        d.resource_type_field_name rt)
    ∧ dictGet (dictSet (Serializers.handler_to_representation h inst)
        d.resource_type_field_name rt) d.resource_type_field_name = some rt
    ∧ dictGet d.model_serializer_mapping rt = some h := by
  refine ⟨by simp [Serializers.to_representation, hres],
    dictGet_dictSet_self _ _ _, ?_⟩
  unfold Serializers.resolve_for_instance at hres
  exact findSome_pair_dictGet d.model_serializer_mapping inst.mro rt h hres

/-- Witness for C6: the serialized `BlogOne` record of the test suite
carries `resourcetype = "BlogOne"`. -/
theorem C6_serialize_discriminator_witness :
    Serializers.to_representation blogDispatcher blogOneInst =
      Except.ok [("name", "blog"), ("slug", "blog-slug"),
                 ("info", "blog-info"), ("resourcetype", "BlogOne")]
    ∧ dictGet [("name", "blog"), ("slug", "blog-slug"),
               ("info", "blog-info"), ("resourcetype", "BlogOne")]
        "resourcetype" = some "BlogOne"
    ∧ dictGet blogDispatcher.model_serializer_mapping "BlogOne"
        = some { fields := ["name", "slug", "info"] } :=
  C6_serialize_discriminator_equals_registered_name blogDispatcher
    blogOneInst "BlogOne" { fields := ["name", "slug", "info"] } rfl

/-- C7: the validate step on a payload whose discriminator is absent or
unregistered always fails, reports the failure as data (the step is a total
function into a result value) as a field error on the discriminator field —
"field required" when absent, "no matching handler" when unknown — and the
list of invoked per-subtype handlers is empty. -/
theorem C7_invalid_resourcetype_fails_without_handler
    (d : Serializers.PolymorphicSerializer) (payload : Payload) :
    (dictGet payload d.resource_type_field_name = none →
      Serializers.is_valid d payload =
        ((false, [(d.resource_type_field_name, ["field required"])]), []))
    ∧ (∀ v, dictGet payload d.resource_type_field_name = some v →
        dictGet d.model_serializer_mapping v = none →
        Serializers.is_valid d payload =
          ((false, [(d.resource_type_field_name,
            ["no matching handler for value " ++ v])]), [])) := by
  constructor
  · intro hmiss
    simp [Serializers.is_valid, hmiss]
  · intro v hv hunreg
    simp [Serializers.is_valid, hv, hunreg]

/-- Witness for C7: the test payload `{"name": "blog", "resourcetype":
"Invalid"}` fails on the discriminator with no handler invoked, and so does
a payload with no discriminator at all. -/
theorem C7_invalid_resourcetype_witness :
    Serializers.is_valid blogDispatcher
        [("name", "blog"), ("resourcetype", "Invalid")] =
      ((false, [("resourcetype", ["no matching handler for value Invalid"])]),
       [])
    ∧ Serializers.is_valid blogDispatcher [("name", "blog")] =
      ((false, [("resourcetype", ["field required"])]), []) :=
  ⟨(C7_invalid_resourcetype_fails_without_handler blogDispatcher
      [("name", "blog"), ("resourcetype", "Invalid")]).2 "Invalid" rfl rfl,
   (C7_invalid_resourcetype_fails_without_handler blogDispatcher
      [("name", "blog")]).1 rfl⟩

/-- C8: construction of a dispatcher fails with the stable
`ImproperlyConfigured` messages of the test suite when the registry is
missing or empty or the discriminator field name is not a string, and
succeeds for every non-empty registry with a string (or defaulted) field
name. -/
theorem C8_construction_configuration_checks (cls : String)
    (mapping : Option (List (String × Serializers.Handler)))
    (rtField : Serializers.PyVal) :
    (mapping = none →
      Serializers.mkPolymorphicSerializer cls mapping rtField =
        Except.error ("`" ++ cls ++ "` is missing a `" ++ cls ++
          ".model_serializer_mapping` attribute"))
    ∧ (mapping = some [] →
      Serializers.mkPolymorphicSerializer cls mapping rtField =
        Except.error ("`" ++ cls ++ "` is missing a `" ++ cls ++
          ".model_serializer_mapping` attribute"))
    ∧ (∀ m i, mapping = some m → m ≠ [] →
        rtField = Serializers.PyVal.int i →
        Serializers.mkPolymorphicSerializer cls mapping rtField =
          Except.error ("`" ++ cls ++
            ".resource_type_field_name` must be a string"))
    ∧ (∀ m fn, mapping = some m → m ≠ [] →
        rtField = Serializers.PyVal.str fn →
        Serializers.mkPolymorphicSerializer cls mapping rtField =
          Except.ok { model_serializer_mapping := m,
                      resource_type_field_name := fn })
    ∧ Serializers.default_resource_type_field =
        Serializers.PyVal.str "resourcetype" := by
  refine ⟨?_, ?_, ?_, ?_, rfl⟩
  · intro hmap
    simp [Serializers.mkPolymorphicSerializer, hmap]
  · intro hmap
    simp [Serializers.mkPolymorphicSerializer, hmap]
  · intro m i hmap hne hint
    have hemp : m.isEmpty = false := by
      cases m with
      | nil => exact absurd rfl hne
      | cons a t => rfl
    simp [Serializers.mkPolymorphicSerializer, hmap, hemp, hint]
  · intro m fn hmap hne hstr
    have hemp : m.isEmpty = false := by
      cases m with
      | nil => exact absurd rfl hne
      | cons a t => rfl
    simp [Serializers.mkPolymorphicSerializer, hmap, hemp, hstr]

/-- Witness for C8: the three construction outcomes of the test suite — no
registry, a non-string field name, and the valid blog configuration. -/
theorem C8_construction_configuration_witness :
    Serializers.mkPolymorphicSerializer "EmptyPolymorphicSerializer" none
        Serializers.default_resource_type_field =
      Except.error ("`EmptyPolymorphicSerializer` is missing a " ++
        "`EmptyPolymorphicSerializer.model_serializer_mapping` attribute")
    ∧ Serializers.mkPolymorphicSerializer "NotStringPolymorphicSerializer"
        (some blogHandlers) (Serializers.PyVal.int 1) =
      Except.error
        "`NotStringPolymorphicSerializer.resource_type_field_name` must be a string"
    ∧ Serializers.mkPolymorphicSerializer "BlogPolymorphicSerializer"
        (some blogHandlers) (Serializers.PyVal.str "resourcetype") =
      Except.ok { model_serializer_mapping := blogHandlers,
                  resource_type_field_name := "resourcetype" } :=
  ⟨(C8_construction_configuration_checks "EmptyPolymorphicSerializer" none
      Serializers.default_resource_type_field).1 rfl,
   ((C8_construction_configuration_checks "NotStringPolymorphicSerializer"
      (some blogHandlers) (Serializers.PyVal.int 1)).2.2.1 blogHandlers 1
      rfl (by decide) rfl),
   ((C8_construction_configuration_checks "BlogPolymorphicSerializer"
      (some blogHandlers) (Serializers.PyVal.str "resourcetype")).2.2.2.1
      blogHandlers "resourcetype" rfl (by decide) rfl)⟩
